import Mathlib

/-!
Verification of the academlo-userscrud repository: a shallow embedding of its
two data-access hooks (the localStorage-backed mock store `useJsonApi` and the
live REST hook `useUsersApi`) and of the view-layer filter/pagination helpers,
together with theorems settling the claims of the specification about them.
-/

set_option autoImplicit false

namespace UsersCrud

/-! ## JavaScript string primitives used by the hooks

`jsTrim` embeds `String.prototype.trim` (strip leading/trailing whitespace),
`jsToLower` embeds `toLowerCase`, `jsIncludes` embeds `String.prototype.includes`
(substring test).  All work on the character list of the string.
-/

/-- Characters of `s` with leading and trailing whitespace removed
(embeds JS `s.trim()`). -/
def jsTrim (s : String) : List Char :=
  ((s.data.dropWhile Char.isWhitespace).reverse.dropWhile Char.isWhitespace).reverse

/-- Holds (`true`) when `s.trim()` is the empty string, i.e. when `!s.trim()` is taken
in JS (the empty string is falsy). -/
def jsBlank (s : String) : Bool :=
  (jsTrim s).isEmpty

/-- Characters of `s` lower-cased (embeds JS `s.toLowerCase()`). -/
def jsToLower (s : String) : List Char :=
  s.data.map Char.toLower

/-- Occurrence test: `containsSub sub hay = true` iff `sub` occurs contiguously inside `hay`. -/
def containsSub (sub : List Char) : List Char → Bool
  | [] => sub.isEmpty
  | h :: t => sub.isPrefixOf (h :: t) || containsSub sub t

/-- Embeds JS `hay.includes(sub)`. -/
def jsIncludes (hay sub : List Char) : Bool :=
  containsSub sub hay

/-- Embeds the email test `/^[^\s@]+@[^\s@]+\.[^\s@]+$/.test s` used by both
hooks: at least one non-whitespace non-`@` character, an `@`, then a part with
no whitespace and no further `@` that carries a `.` with at least one character
on each side of it. -/
def emailRegexTest (s : String) : Bool :=
  let cs := s.data
  let lpart := cs.takeWhile (fun c => c != '@')
  match cs.dropWhile (fun c => c != '@') with
  | '@' :: dpart =>
    !lpart.isEmpty && lpart.all (fun c => !c.isWhitespace) &&
    dpart.all (fun c => !c.isWhitespace && c != '@') &&
    ((dpart.drop 1).dropLast.contains '.')
  | _ => false

namespace Mock

/-! ## Mock store (hook `useJsonApi`, file using the `users-crud-modifications`
localStorage key)

The record shape is `JsonUser` from `types/api.ts` (string id); `CreateUser`
is `Omit<JsonUser, "id">`; a `Partial<JsonUser>` patch becomes `PartialUser`
with one `Option` per field.
-/

/-- A user record of the mock store (`JsonUser` in `types/api.ts`). -/
structure JsonUser where
  id : String
  firstName : String
  lastName : String
  email : String
  birthDate : String
  avatarUrl : Option String
  deriving Repr, DecidableEq

/-- The creation input: `CreateUser = Omit<JsonUser, "id">`. -/
structure CreateUser where
  firstName : String
  lastName : String
  email : String
  birthDate : String
  avatarUrl : Option String
  deriving Repr, DecidableEq

/-- A `Partial<JsonUser>` patch: each field is present (`some`) or absent. -/
structure PartialUser where
  id : Option String := none
  firstName : Option String := none
  lastName : Option String := none
  email : Option String := none
  birthDate : Option String := none
  avatarUrl : Option String := none
  deriving Repr, DecidableEq

/-- JS object spread `{...user, ...patch}`: fields present in the patch win. -/
def applyPatch (user : JsonUser) (patch : PartialUser) : JsonUser where
  id := patch.id.getD user.id
  firstName := patch.firstName.getD user.firstName
  lastName := patch.lastName.getD user.lastName
  email := patch.email.getD user.email
  birthDate := patch.birthDate.getD user.birthDate
  avatarUrl := patch.avatarUrl.orElse fun _ => user.avatarUrl

/-- JS object spread `{...oldPatch, ...newPatch}` on two partial patches. -/
def mergePatch (oldPatch newPatch : PartialUser) : PartialUser where
  id := newPatch.id.orElse fun _ => oldPatch.id
  firstName := newPatch.firstName.orElse fun _ => oldPatch.firstName
  lastName := newPatch.lastName.orElse fun _ => oldPatch.lastName
  email := newPatch.email.orElse fun _ => oldPatch.email
  birthDate := newPatch.birthDate.orElse fun _ => oldPatch.birthDate
  avatarUrl := newPatch.avatarUrl.orElse fun _ => oldPatch.avatarUrl

/-- The modification log persisted under the `users-crud-modifications` key:
`{created: JsonUser[], updated: Record<string, Partial<JsonUser>>, deleted: string[]}`.
The keyed object `updated` is embedded as an association list. -/
structure Modifications where
  created : List JsonUser
  updated : List (String × PartialUser)
  deleted : List String
  deriving Repr, DecidableEq

/-- The empty modification log `{ created: [], updated: {}, deleted: [] }`. -/
def emptyModifications : Modifications where
  created := []
  updated := []
  deleted := []

/-- Lookup `modifications.updated[id]`: first entry for the key, if any. -/
def lookupUpdate (modifications : Modifications) (id : String) : Option PartialUser :=
  (modifications.updated.find? (fun e => e.1 == id)).map (fun e => e.2)

/-- Assignment `modifications.updated[id] = p`: replace the entry for the key, or add it. -/
def setUpdated (updated : List (String × PartialUser)) (id : String)
    (p : PartialUser) : List (String × PartialUser) :=
  if updated.any (fun e => e.1 == id) then
    updated.map (fun e => if e.1 == id then (id, p) else e)
  else
    updated ++ [(id, p)]

/-- The content of the localStorage key as `getStoredModifications` can see it:
absent (`getItem` returned `null`), present but rejected by `JSON.parse`
(the `catch` branch), or present and parsed to a log value. -/
inductive StoredValue where
  | absent
  | corrupt
  | value (m : Modifications)
  deriving Repr, DecidableEq

/-- Embeds `getStoredModifications`: `stored ? JSON.parse(stored) :
{created: [], updated: {}, deleted: []}` inside `try`/`catch`, the catch
branch also yielding the empty log. -/
def getStoredModifications : StoredValue → Modifications
  | .absent => emptyModifications
  | .corrupt => emptyModifications
  | .value m => m

/-- The mutable state the mock hook touches: the localStorage key and the
in-memory `users` list held in React state. -/
structure MockState where
  storage : StoredValue
  users : List JsonUser
  deriving Repr, DecidableEq

/-- Embeds `mergeUsersWithModifications`: map the update patches over the base
(seed) users, drop those whose (patched) id is in `deleted`, then append the
`created` bucket. -/
def mergeUsersWithModifications (baseUsers : List JsonUser)
    (modifications : Modifications) : List JsonUser :=
  let merged := (baseUsers.map (fun user =>
      match lookupUpdate modifications user.id with
      | some updatedData => applyPatch user updatedData
      | none => user)).filter
    (fun user => !(modifications.deleted.contains user.id))
  merged ++ modifications.created

/-- The seed-derived portion of the merge (everything before the `created`
bucket is appended). -/
def mergedSeedPart (baseUsers : List JsonUser) (modifications : Modifications) :
    List JsonUser :=
  (baseUsers.map (fun user =>
      match lookupUpdate modifications user.id with
      | some updatedData => applyPatch user updatedData
      | none => user)).filter
    (fun user => !(modifications.deleted.contains user.id))

/-- Embeds `getUsers` (the `list()` operation): fetch the seed, merge the
stored log, replace the in-memory list, return the merged list.  The seed
fetch is assumed to succeed (its failure path touches no state). -/
def getUsers (seed : List JsonUser) (st : MockState) :
    MockState × List JsonUser :=
  let mergedUsers := mergeUsersWithModifications seed (getStoredModifications st.storage)
  ({ st with users := mergedUsers }, mergedUsers)

/-- Embeds `createUser`: build the new record with the generated id, validate
required fields and email shape (throwing before any state write), then push
to the `created` bucket, persist, and append to the in-memory list. -/
def createUser (st : MockState) (user : CreateUser) (newId : String) :
    MockState × Except String JsonUser :=
  let newUser : JsonUser :=
    { id := newId, firstName := user.firstName, lastName := user.lastName,
      email := user.email, birthDate := user.birthDate, avatarUrl := user.avatarUrl }
  if jsBlank user.firstName || jsBlank user.lastName || jsBlank user.email then
    (st, .error "Name and email are required fields")
  else if !emailRegexTest user.email then
    (st, .error "Please provide a valid email address")
  else
    let modifications := getStoredModifications st.storage
    let modifications :=
      { modifications with created := modifications.created ++ [newUser] }
    ({ storage := .value modifications, users := st.users ++ [newUser] },
     .ok newUser)

/-- Embeds `userUpdate.email && !regex.test(userUpdate.email)`: the check fires only
when the patch carries a truthy (non-empty) email that fails the regex. -/
def emailCheckFails (userUpdate : PartialUser) : Bool :=
  match userUpdate.email with
  | some e => !e.isEmpty && !emailRegexTest e
  | none => false

/-- Embeds `updateUser`: require the id in the in-memory list, validate a
present email, pin the id on the in-memory record
(`{...currentUser, ...userUpdate, id}`), shallow-merge the raw patch into the
`updated` bucket, persist, and replace the record in the in-memory list. -/
def updateUser (st : MockState) (id : String) (userUpdate : PartialUser) :
    MockState × Except String JsonUser :=
  match st.users.find? (fun u => u.id == id) with
  | none => (st, .error s!"User with ID {id} not found")
  | some currentUser =>
    if emailCheckFails userUpdate then
      (st, .error "Please provide a valid email address")
    else
      let updatedUser : JsonUser := { applyPatch currentUser userUpdate with id := id }
      let modifications := getStoredModifications st.storage
      let previous := (lookupUpdate modifications id).getD {}
      let modifications :=
        { modifications with
          updated := setUpdated modifications.updated id (mergePatch previous userUpdate) }
      ({ storage := .value modifications,
         users := st.users.map (fun u => if u.id == id then updatedUser else u) },
       .ok updatedUser)

/-- Embeds `deleteUser`: require the id in the in-memory list, filter it out
of the `created` bucket, then — because the membership test runs on the
already-filtered bucket — push the id onto `deleted`, drop any pending patch,
persist, and prune the in-memory list. -/
def deleteUser (st : MockState) (userId : String) : MockState × Except String Unit :=
  if !(st.users.any (fun u => u.id == userId)) then
    (st, .error s!"User with ID {userId} not found")
  else
    let modifications := getStoredModifications st.storage
    let created1 := modifications.created.filter (fun u => u.id != userId)
    let deleted1 :=
      if !(created1.any (fun u => u.id == userId)) then
        modifications.deleted ++ [userId]
      else
        modifications.deleted
    let updated1 := modifications.updated.filter (fun e => e.1 != userId)
    ({ storage := .value { created := created1, updated := updated1, deleted := deleted1 },
       users := st.users.filter (fun u => u.id != userId) },
     .ok ())

/-- Embeds `resetToDefaults`: remove the localStorage key, then re-run
`getUsers`. -/
def resetToDefaults (seed : List JsonUser) (st : MockState) :
    MockState × List JsonUser :=
  getUsers seed { st with storage := .absent }

/-- One mutating operation of the mock hook (the nondeterministic generated id
of `create` is a parameter). -/
inductive MockOp where
  | create (user : CreateUser) (newId : String)
  | update (id : String) (userUpdate : PartialUser)
  | delete (id : String)
  deriving Repr

/-- Run one mutating operation, keeping only success/failure of the result. -/
def mockStep (st : MockState) : MockOp → MockState × Except String Unit
  | .create user newId =>
    let r := createUser st user newId
    (r.1, r.2.map (fun _ => ()))
  | .update id userUpdate =>
    let r := updateUser st id userUpdate
    (r.1, r.2.map (fun _ => ()))
  | .delete id => deleteUser st id

end Mock

namespace Api

/-! ## Live REST hook (`useUsersApi.ts`)

The record shape is `JsonUser` from the API half of `types/api.ts` (numeric
id, write-only password, `birthday`, optional timestamps); `CreateUser` is
`Omit<JsonUser, "id" | "createdAt" | "updatedAt">`.  The transport is a
parameter of each operation: `none` stands for a request whose `await` threw
(network failure or HTTP error status), `some r` for a received envelope. -/

/-- A user record of the live API (`JsonUser` in the API half of
`types/api.ts`). -/
structure JsonUser where
  id : Int
  firstName : String
  lastName : String
  email : String
  password : Option String
  birthday : String
  avatarUrl : Option String
  createdAt : Option String
  updatedAt : Option String
  deriving Repr, DecidableEq

/-- The creation input: `CreateUser = Omit<JsonUser, "id" | "createdAt" | "updatedAt">`. -/
structure CreateUser where
  firstName : String
  lastName : String
  email : String
  password : Option String
  birthday : String
  avatarUrl : Option String
  deriving Repr, DecidableEq

/-- A `Partial<CreateUser>` patch for `updateUser`. -/
structure UpdatePatch where
  firstName : Option String := none
  lastName : Option String := none
  email : Option String := none
  password : Option String := none
  birthday : Option String := none
  avatarUrl : Option String := none
  deriving Repr, DecidableEq

/-- The response envelope `{success, message, data, count?}`. -/
structure ApiResponse (α : Type) where
  success : Bool
  message : String
  data : α
  count : Option Nat := none
  deriving Repr, DecidableEq

/-- Outcome of one live-hook operation: the in-memory list afterwards, the
result (the message of the thrown error on failure), and whether an HTTP request
was issued at all. -/
structure ApiResult (α : Type) where
  users : List JsonUser
  result : Except String α
  sent : Bool
  deriving Repr

/-- Embeds `response.data.message || default`: JS `||` falls back on an empty
(falsy) message string. -/
def envelopeMessage (message fallback : String) : String :=
  if message.isEmpty then fallback else message

/-- Embeds `!user.password || user.password.length < 8`: missing and empty passwords
are falsy, so they fail the check, as does any shorter than 8 characters. -/
def passwordCheckFails (password : Option String) : Bool :=
  match password with
  | none => true
  | some p => p.isEmpty || p.length < 8

/-- Embeds `userUpdate.password && userUpdate.password.length < 8`: only a truthy
(present, non-empty) password is length-checked on update. -/
def passwordUpdateCheckFails (password : Option String) : Bool :=
  match password with
  | none => false
  | some p => !p.isEmpty && p.length < 8

/-- Embeds the live `createUser`: required-field, email-shape and
password-length validation throw before the POST; `none` transport throws;
a non-success envelope throws with its message (or the fallback); on success
the server record is appended to the in-memory list. -/
def createUser (users : List JsonUser) (user : CreateUser)
    (resp : Option (ApiResponse JsonUser)) : ApiResult JsonUser :=
  if jsBlank user.firstName || jsBlank user.lastName || jsBlank user.email then
    { users := users,
      result := .error "First name, last name and email are required fields",
      sent := false }
  else if !emailRegexTest user.email then
    { users := users, result := .error "Please provide a valid email address",
      sent := false }
  else if passwordCheckFails user.password then
    { users := users,
      result := .error "Password must be at least 8 characters long",
      sent := false }
  else
    match resp with
    | none =>
      { users := users,
        result := .error "Network error - unable to reach server. Make sure the API is running.",
        sent := true }
    | some r =>
      if !r.success then
        { users := users,
          result := .error (envelopeMessage r.message "Failed to create user"),
          sent := true }
      else
        { users := users ++ [r.data], result := .ok r.data, sent := true }

/-- Embeds the live `updateUser`: conditional email/password validation throws
before the PUT; on success the server record replaces the record with the
requested id in the in-memory list. -/
def updateUser (users : List JsonUser) (id : Int) (userUpdate : UpdatePatch)
    (resp : Option (ApiResponse JsonUser)) : ApiResult JsonUser :=
  if (match userUpdate.email with
      | some e => !e.isEmpty && !emailRegexTest e
      | none => false) then
    { users := users, result := .error "Please provide a valid email address",
      sent := false }
  else if passwordUpdateCheckFails userUpdate.password then
    { users := users,
      result := .error "Password must be at least 8 characters long",
      sent := false }
  else
    match resp with
    | none =>
      { users := users,
        result := .error "Network error - unable to reach server. Make sure the API is running.",
        sent := true }
    | some r =>
      if !r.success then
        { users := users,
          result := .error (envelopeMessage r.message "Failed to update user"),
          sent := true }
      else
        { users := users.map (fun u => if u.id == id then r.data else u),
          result := .ok r.data, sent := true }

/-- Embeds the live `deleteUser`: no client-side validation; on success the
record is filtered out of the in-memory list. -/
def deleteUser (users : List JsonUser) (userId : Int)
    (resp : Option (ApiResponse Int)) : ApiResult Unit :=
  match resp with
  | none =>
    { users := users,
      result := .error "Network error - unable to reach server. Make sure the API is running.",
      sent := true }
  | some r =>
    if !r.success then
      { users := users,
        result := .error (envelopeMessage r.message "Failed to delete user"),
        sent := true }
    else
      { users := users.filter (fun u => u.id != userId), result := .ok (),
        sent := true }

/-- One mutating operation of the live hook, carrying its transport outcome. -/
inductive ApiOp where
  | create (user : CreateUser) (resp : Option (ApiResponse JsonUser))
  | update (id : Int) (userUpdate : UpdatePatch) (resp : Option (ApiResponse JsonUser))
  | delete (id : Int) (resp : Option (ApiResponse Int))
  deriving Repr

/-- Run one mutating operation of the live hook, keeping only
success/failure. -/
def apiStep (users : List JsonUser) : ApiOp → ApiResult Unit
  | .create user resp =>
    let r := createUser users user resp
    { users := r.users, result := r.result.map (fun _ => ()), sent := r.sent }
  | .update id userUpdate resp =>
    let r := updateUser users id userUpdate resp
    { users := r.users, result := r.result.map (fun _ => ()), sent := r.sent }
  | .delete id resp => deleteUser users id resp

end Api

namespace View

/-! ## View-layer filtering and pagination

`matchesSearch`/`filterUsers` embed the filter of `UsersTable.tsx`;
`handleChangePage` embeds the guard of `TablePager.tsx`, which `App.tsx`
instantiates with `totalItems = users.length` (the unfiltered list length). -/

/-- The `UsersTable` predicate: the lower-cased `"firstName lastName"` or the
lower-cased email contains the lower-cased search text. -/
def matchesSearch (searchText : String) (user : Mock.JsonUser) : Bool :=
  let fullName := jsToLower (user.firstName ++ " " ++ user.lastName)
  jsIncludes fullName (jsToLower searchText) ||
    jsIncludes (jsToLower user.email) (jsToLower searchText)

/-- The `UsersTable` filter step (before the page slice). -/
def filterUsers (searchText : String) (data : List Mock.JsonUser) :
    List Mock.JsonUser :=
  data.filter (matchesSearch searchText)

/-- The `UsersTable` page slice `.slice((page-1)*itemsPerPage, page*itemsPerPage)`. -/
def pageSlice (page itemsPerPage : Nat) (matched : List Mock.JsonUser) :
    List Mock.JsonUser :=
  (matched.drop ((page - 1) * itemsPerPage)).take itemsPerPage

/-- Embeds `Math.ceil(totalItems / itemsPerPage)` for a positive `itemsPerPage`. -/
def totalPages (totalItems itemsPerPage : Nat) : Int :=
  ((totalItems + itemsPerPage - 1) / itemsPerPage : Nat)

/-- Embeds `handleChangePage` of `TablePager.tsx`: a target outside
`[1, Math.ceil(totalItems / itemsPerPage)]` is dropped (`none`), otherwise
`onPageChange` fires with it (`some`). -/
def handleChangePage (totalItems itemsPerPage : Nat) (newPage : Int) :
    Option Int :=
  if newPage < 1 || newPage > totalPages totalItems itemsPerPage then none
  else some newPage

end View

/-! ## Shared helper definitions and lemmas -/

/-- Holds (`true`) exactly on `Except.error` (a thrown/rejected operation). -/
def isFailure {α : Type} : Except String α → Bool
  | .error _ => true
  | .ok _ => false

theorem isFailure_map {α β : Type} (f : α → β) (r : Except String α) :
    isFailure (r.map f) = isFailure r := by
  cases r <;> rfl

theorem containsSub_nil (hay : List Char) : containsSub [] hay = true := by
  cases hay <;> simp [containsSub, List.isPrefixOf]

/-- Correctness of `containsSub`: it decides contiguous-sublist occurrence. -/
theorem containsSub_iff (sub hay : List Char) :
    containsSub sub hay = true ↔ sub <:+: hay := by
  induction hay with
  | nil =>
    simp [containsSub, List.isEmpty_iff, List.infix_nil]
  | cons h t ih =>
    simp [containsSub, List.infix_cons_iff, List.isPrefixOf_iff_prefix, ih]

/-- Merging the empty modification log is the identity on the seed. -/
theorem mergeUsersWithModifications_emptyLog (seed : List Mock.JsonUser) :
    Mock.mergeUsersWithModifications seed Mock.emptyModifications = seed := by
  simp [Mock.mergeUsersWithModifications, Mock.lookupUpdate, Mock.emptyModifications]

/-! ## Concrete fixtures used by counterexamples and witnesses -/

/-- The seed record of the example scenario of the specification. -/
def ana : Mock.JsonUser :=
  { id := "1", firstName := "Ana", lastName := "Ruiz", email := "ana@x.com",
    birthDate := "1990-01-01", avatarUrl := none }

/-- The creation input of the example scenario of the specification. -/
def boInput : Mock.CreateUser :=
  { firstName := "Bo", lastName := "Lee", email := "bo@x.com",
    birthDate := "2000-01-01", avatarUrl := none }

/-- A small record factory for the pagination fixtures. -/
def mkUser (i fn : String) : Mock.JsonUser :=
  { id := i, firstName := fn, lastName := "X", email := i ++ "@x.com",
    birthDate := "1990-01-01", avatarUrl := none }

/-- Ten records of which exactly two match the search text `"ana"`. -/
def users10 : List Mock.JsonUser :=
  [mkUser "1" "Ana", mkUser "2" "Anabel", mkUser "3" "Bob", mkUser "4" "Carl",
   mkUser "5" "Dan", mkUser "6" "Eve", mkUser "7" "Fay", mkUser "8" "Gus",
   mkUser "9" "Hal", mkUser "10" "Ivy"]

/-! ## Claim theorems -/

/-- C4: for every prior mutation history (any storage content and any
in-memory list), `resetToDefaults()` clears the modification log, makes the
in-memory list equal to the static seed, returns exactly the seed in order,
and a further `list()` returns the seed again: the merge of the empty log
with the seed is the identity. -/
theorem C4_reset_then_list_returns_seed (seed : List Mock.JsonUser)
    (st : Mock.MockState) :
    (Mock.resetToDefaults seed st).2 = seed ∧
    (Mock.resetToDefaults seed st).1 = { storage := .absent, users := seed } ∧
    (Mock.getUsers seed (Mock.resetToDefaults seed st).1).2 = seed := by
  refine ⟨?_, ?_, ?_⟩ <;>
    simp [Mock.resetToDefaults, Mock.getUsers, Mock.getStoredModifications,
      mergeUsersWithModifications_emptyLog]

/-- C5: filtering with search text `""` returns the record list unchanged and
in order, and for every search text `t` a record of the list is in the
filtered result if and only if the lower-cased `t` occurs as a contiguous
substring of the lower-cased `"firstName lastName"` full name or of the
lower-cased email. -/
theorem C5_filter_characterization :
    (∀ data : List Mock.JsonUser, View.filterUsers "" data = data) ∧
    (∀ (t : String) (data : List Mock.JsonUser) (u : Mock.JsonUser),
      u ∈ View.filterUsers t data ↔
        u ∈ data ∧
          (jsToLower t <:+: jsToLower (u.firstName ++ " " ++ u.lastName) ∨
           jsToLower t <:+: jsToLower u.email)) := by
  constructor
  · intro data
    apply List.filter_eq_self.mpr
    intro u _
    have hlt : jsToLower "" = [] := rfl
    simp [View.matchesSearch, jsIncludes, hlt, containsSub_nil]
  · intro t data u
    rw [View.filterUsers, List.mem_filter]
    simp [View.matchesSearch, jsIncludes, containsSub_iff]

/-- C9: `getStoredModifications` is total, and on an absent storage key or on
content rejected by `JSON.parse` it yields the empty log
`{created: [], updated: {}, deleted: []}`, with which the merge reproduces the
seed — `list()` cannot fail because of a missing or unparseable modification
log. -/
theorem C9_missing_or_corrupt_log_defaults (seed : List Mock.JsonUser)
    (s : Mock.StoredValue) (h : s = .absent ∨ s = .corrupt) :
    Mock.getStoredModifications s = Mock.emptyModifications ∧
    Mock.mergeUsersWithModifications seed (Mock.getStoredModifications s) = seed := by
  rcases h with h | h <;> subst h <;>
    exact ⟨rfl, mergeUsersWithModifications_emptyLog seed⟩

/-- Witness for C9 at the absent storage key and the one-record seed. -/
theorem C9_missing_or_corrupt_log_defaults_witness :
    Mock.getStoredModifications .absent = Mock.emptyModifications ∧
    Mock.mergeUsersWithModifications [ana] (Mock.getStoredModifications .absent) = [ana] :=
  C9_missing_or_corrupt_log_defaults [ana] .absent (Or.inl rfl)

/-- The record `createUser` synthesizes from `boInput` under the id
`"user_9"`. -/
def bo : Mock.JsonUser :=
  { id := "user_9", firstName := "Bo", lastName := "Lee", email := "bo@x.com",
    birthDate := "2000-01-01", avatarUrl := none }

/-- C1 (code bug): deleting a record that sits in the `created` bucket still
pushes its id onto the `deleted` set, because the membership test runs on the
bucket after the record has already been filtered out of it.  Evaluated on a
store whose only local record is `bo`: the resulting log is
`{created: [], updated: {}, deleted: ["user_9"]}` instead of leaving `deleted`
empty. -/
theorem C1_deleteUser_tombstones_created_record :
    Mock.deleteUser
        { storage := .value { created := [bo], updated := [], deleted := [] },
          users := [ana, bo] } "user_9" =
      ({ storage := .value { created := [], updated := [], deleted := ["user_9"] },
         users := [ana] }, .ok ()) := by
  rfl

/-- C2 (code bug): on the example scenario of the specification — create `bo`,
then `update("user_9", {lastName := "Lee2"})` — the update succeeds and the
in-memory list shows `"Lee2"`, but the next `list()` re-merges the log and
reverts the record to `"Lee"`, because the merge applies `updated` patches
only to seed records, never to the `created` bucket. -/
theorem C2_update_of_created_record_reverts_on_list :
    (let afterCreate :=
      (Mock.createUser { storage := .absent, users := [ana] } boInput "user_9").1
    let afterUpdate := Mock.updateUser afterCreate "user_9" { lastName := some "Lee2" }
    isFailure afterUpdate.2 = false ∧
    (afterUpdate.1.users.find? (fun u => u.id == "user_9")).map (fun u => u.lastName)
      = some "Lee2" ∧
    ((Mock.getUsers [ana] afterUpdate.1).2.find? (fun u => u.id == "user_9")).map
        (fun u => u.lastName)
      = some "Lee") := by
  refine ⟨rfl, rfl, rfl⟩

/-- C8 (code bug): `update(id, patch)` pins the id on the returned record and
on the in-memory list, but stores the raw patch — id field included — in the
`updated` bucket; the merge then applies it, so a subsequent `list()` shows
the record under the patched id `"2"` instead of the original `"1"`. -/
theorem C8_update_patch_with_id_changes_listed_id :
    (let afterUpdate :=
      Mock.updateUser { storage := .absent, users := [ana] } "1" { id := some "2" }
    afterUpdate.2.map (fun u => u.id) = .ok "1" ∧
    afterUpdate.1.users.map (fun u => u.id) = ["1"] ∧
    (Mock.getUsers [ana] afterUpdate.1).2.map (fun u => u.id) = ["2"]) := by
  refine ⟨rfl, rfl, rfl⟩

/-- C3 counterexample: with ten records of which exactly two match the search
text `"ana"` and a page size of 5, the filtered range is `[1, 1]`, yet the
pager — fed `totalItems = users.length` by `App.tsx` — accepts a change to
page 2 instead of rejecting it. -/
theorem C3_counterexample_pager_bound_is_unfiltered :
    (View.filterUsers "ana" users10).length = 2 ∧
    View.totalPages (View.filterUsers "ana" users10).length 5 = 1 ∧
    View.handleChangePage users10.length 5 2 = some 2 := by
  refine ⟨by decide, by decide, by decide⟩

/-- C3 (amended): every page-change request whose target lies outside
`[1, ceil(totalItems/itemsPerPage)]`, where `totalItems` is the length of the
full unfiltered record list handed to the pager, is rejected as a no-op (for
the positive page sizes the app offers). -/
theorem C3_amended_out_of_unfiltered_range_rejected
    (totalItems itemsPerPage : Nat) (newPage : Int) (_hpos : 0 < itemsPerPage)
    (h : newPage < 1 ∨ newPage > View.totalPages totalItems itemsPerPage) :
    View.handleChangePage totalItems itemsPerPage newPage = none := by
  rcases h with h | h <;> simp [View.handleChangePage, h]

/-- Witness for the amended C3: with 10 records and page size 5 the pager
rejects a jump to page 3. -/
theorem C3_amended_out_of_unfiltered_range_rejected_witness :
    0 < 5 ∧ ((3 : Int) > View.totalPages 10 5) ∧
    View.handleChangePage 10 5 3 = none :=
  ⟨by decide, by decide,
   C3_amended_out_of_unfiltered_range_rejected 10 5 3 (by decide)
     (Or.inr (by decide))⟩

/-- The record a seed user becomes under its pending patch, before the
`deleted` filter runs (the map stage of `mergeUsersWithModifications`). -/
def patchRecord (modifications : Mock.Modifications) (user : Mock.JsonUser) :
    Mock.JsonUser :=
  match Mock.lookupUpdate modifications user.id with
  | some updatedData => Mock.applyPatch user updatedData
  | none => user

/-- A log holding a pending id-changing patch for seed id `"1"` together with
a tombstone for `"1"` itself. -/
def evilMods : Mock.Modifications :=
  { created := [], updated := [("1", { id := some "2" })], deleted := ["1"] }

/-- A log whose id-changing patch makes the patched record land on the
tombstoned id `"2"`. -/
def patchedIdDeletedMods : Mock.Modifications :=
  { created := [], updated := [("1", { id := some "2" })], deleted := ["2"] }

/-- A log with a tombstone for `"1"` and no pending patches. -/
def plainDeleteMods : Mock.Modifications :=
  { created := [], updated := [], deleted := ["1"] }

/-- C10 counterexample: with seed `[ana]` (id `"1"`), a tombstone for `"1"`
and a pending patch `{id: "2"}` for `"1"`, the merge keeps the seed record
(under id `"2"`) even though its id is in the `deleted` set and the `created`
bucket is empty — deletion does not take precedence over an id-changing
patch. -/
theorem C10_counterexample_patched_id_evades_deletion :
    evilMods.created = [] ∧
    evilMods.deleted.contains ana.id = true ∧
    Mock.mergeUsersWithModifications [ana] evilMods = [{ ana with id := "2" }] := by
  refine ⟨rfl, by decide, by decide⟩

/-- C10 (amended): the merge filters on the id of the record **after** its
pending patch is applied: every seed record whose patched id lies in the
`deleted` set is excluded from the seed-derived part of the merge (the merge
being that part followed by the `created` bucket); in particular a seed
record whose pending patch does not set the id field is excluded whenever its
own id is in the `deleted` set. -/
theorem C10_amended_deletion_excludes_patched_id :
    (∀ (seed : List Mock.JsonUser) (modifications : Mock.Modifications)
        (u : Mock.JsonUser), u ∈ seed →
      modifications.deleted.contains (patchRecord modifications u).id = true →
        Mock.mergeUsersWithModifications seed modifications =
          Mock.mergedSeedPart seed modifications ++ modifications.created ∧
        patchRecord modifications u ∉ Mock.mergedSeedPart seed modifications) ∧
    (∀ (seed : List Mock.JsonUser) (modifications : Mock.Modifications)
        (u : Mock.JsonUser), u ∈ seed →
      (∀ p, Mock.lookupUpdate modifications u.id = some p → p.id = none) →
      modifications.deleted.contains u.id = true →
        patchRecord modifications u ∉ Mock.mergedSeedPart seed modifications) := by
  have hnotmem : ∀ (seed : List Mock.JsonUser) (modifications : Mock.Modifications)
      (v : Mock.JsonUser), modifications.deleted.contains v.id = true →
      v ∉ Mock.mergedSeedPart seed modifications := by
    intro seed modifications v hdel hmem
    have := (List.mem_filter.mp hmem).2
    simp at this
    exact this (by simpa using hdel)
  constructor
  · intro seed modifications u _ hdel
    exact ⟨rfl, hnotmem seed modifications _ hdel⟩
  · intro seed modifications u _ hnoid hdel
    have hid : (patchRecord modifications u).id = u.id := by
      unfold patchRecord
      cases hp : Mock.lookupUpdate modifications u.id with
      | none => rfl
      | some p =>
        have := hnoid p hp
        simp [Mock.applyPatch, this]
    exact hnotmem seed modifications _ (by rw [hid]; exact hdel)

/-- Witness for the amended C10: the patched-id case on
`patchedIdDeletedMods` and the unpatched case on `plainDeleteMods`, both over
the seed `[ana]`. -/
theorem C10_amended_deletion_excludes_patched_id_witness :
    patchedIdDeletedMods.deleted.contains (patchRecord patchedIdDeletedMods ana).id = true ∧
    patchRecord patchedIdDeletedMods ana ∉ Mock.mergedSeedPart [ana] patchedIdDeletedMods ∧
    patchRecord plainDeleteMods ana ∉ Mock.mergedSeedPart [ana] plainDeleteMods :=
  ⟨by decide,
   (C10_amended_deletion_excludes_patched_id.1 [ana] patchedIdDeletedMods ana
     (by decide) (by decide)).2,
   C10_amended_deletion_excludes_patched_id.2 [ana] plainDeleteMods ana
     (by decide) (fun p hp => by simp [Mock.lookupUpdate, plainDeleteMods] at hp)
     (by decide)⟩

/-- A live-API create input passing every client-side check. -/
def apiInputValid : Api.CreateUser :=
  { firstName := "F", lastName := "L", email := "f@x.com",
    password := some "12345678", birthday := "2000-01-01", avatarUrl := none }

/-- A live-API create input with a blank first name. -/
def apiInputBlankFirst : Api.CreateUser :=
  { apiInputValid with firstName := "" }

/-- A live-API create input with a malformed email. -/
def apiInputBadEmail : Api.CreateUser :=
  { apiInputValid with email := "not-an-email" }

/-- A live-API create input with a 5-character password. -/
def apiInputShortPassword : Api.CreateUser :=
  { apiInputValid with password := some "short" }

/-! ## Failure frame lemmas: every throw happens before any state write -/

theorem createUser_fail_state (st : Mock.MockState) (user : Mock.CreateUser)
    (newId : String) (h : isFailure (Mock.createUser st user newId).2 = true) :
    (Mock.createUser st user newId).1 = st := by
  revert h
  unfold Mock.createUser
  split
  · intro _; rfl
  · split
    · intro _; rfl
    · intro h; simp [isFailure] at h

theorem updateUser_fail_state (st : Mock.MockState) (id : String)
    (userUpdate : Mock.PartialUser)
    (h : isFailure (Mock.updateUser st id userUpdate).2 = true) :
    (Mock.updateUser st id userUpdate).1 = st := by
  revert h
  unfold Mock.updateUser
  split
  · intro _; rfl
  · split
    · intro _; rfl
    · intro h; simp [isFailure] at h

theorem deleteUser_fail_state (st : Mock.MockState) (userId : String)
    (h : isFailure (Mock.deleteUser st userId).2 = true) :
    (Mock.deleteUser st userId).1 = st := by
  revert h
  unfold Mock.deleteUser
  split
  · intro _; rfl
  · intro h; simp [isFailure] at h

theorem apiCreate_fail_users (users : List Api.JsonUser) (user : Api.CreateUser)
    (resp : Option (Api.ApiResponse Api.JsonUser))
    (h : isFailure (Api.createUser users user resp).result = true) :
    (Api.createUser users user resp).users = users := by
  revert h
  unfold Api.createUser
  split
  · intro _; rfl
  · split
    · intro _; rfl
    · split
      · intro _; rfl
      · split
        · intro _; rfl
        · split
          · intro _; rfl
          · intro h; simp [isFailure] at h

theorem apiUpdate_fail_users (users : List Api.JsonUser) (id : Int)
    (userUpdate : Api.UpdatePatch) (resp : Option (Api.ApiResponse Api.JsonUser))
    (h : isFailure (Api.updateUser users id userUpdate resp).result = true) :
    (Api.updateUser users id userUpdate resp).users = users := by
  revert h
  unfold Api.updateUser
  split
  · intro _; rfl
  · split
    · intro _; rfl
    · split
      · intro _; rfl
      · split
        · intro _; rfl
        · intro h; simp [isFailure] at h

theorem apiDelete_fail_users (users : List Api.JsonUser) (userId : Int)
    (resp : Option (Api.ApiResponse Int))
    (h : isFailure (Api.deleteUser users userId resp).result = true) :
    (Api.deleteUser users userId resp).users = users := by
  revert h
  unfold Api.deleteUser
  split
  · intro _; rfl
  · split
    · intro _; rfl
    · intro h; simp [isFailure] at h

/-- C6: every mutating operation that fails — client-side validation, mock
not-found, transport failure (`resp = none`) or a non-success envelope —
leaves the in-memory user list unchanged, on both hooks; and the mock
`delete(unknownId)` fails with the not-found error (leaving the whole state
unchanged). -/
theorem C6_failed_mutations_leave_list_unchanged :
    (∀ (st : Mock.MockState) (op : Mock.MockOp),
      isFailure (Mock.mockStep st op).2 = true →
        (Mock.mockStep st op).1.users = st.users) ∧
    (∀ (users : List Api.JsonUser) (op : Api.ApiOp),
      isFailure (Api.apiStep users op).result = true →
        (Api.apiStep users op).users = users) ∧
    (∀ (st : Mock.MockState) (id : String),
      st.users.any (fun u => u.id == id) = false →
        Mock.deleteUser st id = (st, .error s!"User with ID {id} not found")) := by
  refine ⟨?_, ?_, ?_⟩
  · intro st op h
    cases op with
    | create user newId =>
      have h' : isFailure (Mock.createUser st user newId).2 = true := by
        simpa [Mock.mockStep, isFailure_map] using h
      show (Mock.createUser st user newId).1.users = st.users
      rw [createUser_fail_state st user newId h']
    | update id userUpdate =>
      have h' : isFailure (Mock.updateUser st id userUpdate).2 = true := by
        simpa [Mock.mockStep, isFailure_map] using h
      show (Mock.updateUser st id userUpdate).1.users = st.users
      rw [updateUser_fail_state st id userUpdate h']
    | delete id =>
      have h' : isFailure (Mock.deleteUser st id).2 = true := by
        simpa [Mock.mockStep] using h
      show (Mock.deleteUser st id).1.users = st.users
      rw [deleteUser_fail_state st id h']
  · intro users op h
    cases op with
    | create user resp =>
      have h' : isFailure (Api.createUser users user resp).result = true := by
        simpa [Api.apiStep, isFailure_map] using h
      exact apiCreate_fail_users users user resp h'
    | update id userUpdate resp =>
      have h' : isFailure (Api.updateUser users id userUpdate resp).result = true := by
        simpa [Api.apiStep, isFailure_map] using h
      exact apiUpdate_fail_users users id userUpdate resp h'
    | delete id resp =>
      have h' : isFailure (Api.deleteUser users id resp).result = true := by
        simpa [Api.apiStep] using h
      exact apiDelete_fail_users users id resp h'
  · intro st id h
    simp [Mock.deleteUser, h]

/-- Witness for C6: a mock delete of the unknown id `"zzz"`, a live create
with no response received, and the not-found shape of the mock delete, all on
concrete states. -/
theorem C6_failed_mutations_leave_list_unchanged_witness :
    isFailure (Mock.mockStep { storage := .absent, users := [ana] } (.delete "zzz")).2 = true ∧
    (Mock.mockStep { storage := .absent, users := [ana] } (.delete "zzz")).1.users = [ana] ∧
    (Api.apiStep [] (.create apiInputValid none)).users = [] ∧
    Mock.deleteUser { storage := .absent, users := [ana] } "zzz" =
      ({ storage := .absent, users := [ana] }, .error "User with ID zzz not found") :=
  ⟨by decide,
   C6_failed_mutations_leave_list_unchanged.1
     { storage := .absent, users := [ana] } (.delete "zzz") (by decide),
   C6_failed_mutations_leave_list_unchanged.2.1 []
     (.create apiInputValid none) (by decide),
   C6_failed_mutations_leave_list_unchanged.2.2
     { storage := .absent, users := [ana] } "zzz" (by decide)⟩

/-- C7: on the live hook, a create whose required fields are blank fails with
the required-fields message; with non-blank fields but a malformed email it
fails with the email message; with a missing, empty or shorter-than-8
password it fails with the password message — in each case synchronously,
with no HTTP request issued (`sent = false`) and independently of any
transport outcome `resp`. -/
theorem C7_create_validation_short_circuits (users : List Api.JsonUser)
    (user : Api.CreateUser) (resp : Option (Api.ApiResponse Api.JsonUser)) :
    ((jsBlank user.firstName || jsBlank user.lastName || jsBlank user.email) = true →
      Api.createUser users user resp =
        { users := users,
          result := .error "First name, last name and email are required fields",
          sent := false }) ∧
    ((jsBlank user.firstName || jsBlank user.lastName || jsBlank user.email) = false →
      emailRegexTest user.email = false →
      Api.createUser users user resp =
        { users := users, result := .error "Please provide a valid email address",
          sent := false }) ∧
    ((jsBlank user.firstName || jsBlank user.lastName || jsBlank user.email) = false →
      emailRegexTest user.email = true →
      Api.passwordCheckFails user.password = true →
      Api.createUser users user resp =
        { users := users,
          result := .error "Password must be at least 8 characters long",
          sent := false }) := by
  refine ⟨?_, ?_, ?_⟩
  · intro h
    simp [Api.createUser, h]
  · intro h1 h2
    simp [Api.createUser, h1, h2]
  · intro h1 h2 h3
    simp [Api.createUser, h1, h2, h3]

/-- Witness for C7: the three validation failures on concrete inputs (blank
first name; malformed email; 5-character password), each with `sent = false`
despite `resp = none`. -/
theorem C7_create_validation_short_circuits_witness :
    Api.createUser [] apiInputBlankFirst none =
      { users := [],
        result := .error "First name, last name and email are required fields",
        sent := false } ∧
    Api.createUser [] apiInputBadEmail none =
      { users := [], result := .error "Please provide a valid email address",
        sent := false } ∧
    Api.createUser [] apiInputShortPassword none =
      { users := [],
        result := .error "Password must be at least 8 characters long",
        sent := false } :=
  ⟨(C7_create_validation_short_circuits [] apiInputBlankFirst none).1 (by decide),
   (C7_create_validation_short_circuits [] apiInputBadEmail none).2.1
     (by decide) (by decide),
   (C7_create_validation_short_circuits [] apiInputShortPassword none).2.2
     (by decide) (by decide) (by decide)⟩

end UsersCrud
